import Mathlib

/-!
Shallow embedding of the NetLedger Python SDK (netledger_sdk) client core:
the HTTP transport response pipeline (http_client.py), the domain model
decode functions (models.py), and the operation groups for entries,
balances, accounts and service (methods/*.py).

JSON wire values are modelled by the inductive `NetLedger.Json`; Python
numbers (JSON numbers) are modelled as `Rat`; Python `None` as `Option`.
Fallible Python code (raised exceptions) is modelled with `Except`.
-/

namespace NetLedger

/-- JSON value as decoded by `response.json()` in the Python SDK.
Numbers are modelled as `Rat`. -/
inductive Json where
  | null
  | bool (b : Bool)
  | num (q : Rat)
  | str (s : String)
  | arr (elems : List Json)
  | obj (fields : List (String × Json))

/-- Python `dict.get(key)` on a JSON object (`None` when absent).
The SDK only ever calls `.get` on dict-shaped payloads; for a non-object
value the Python code would fail with `AttributeError`, a case the claim
theorems exclude by hypothesis, so we return `none` there. -/
def Json.get? (j : Json) (key : String) : Option Json :=
  match j with
  | .obj fields => fields.lookup key
  | _ => none

/-- Python truthiness of a JSON value (`if data:` / `if not data:`). -/
def Json.truthy : Json → Bool
  | .null => false
  | .bool b => b
  | .num q => decide (q ≠ 0)
  | .str s => decide (s ≠ "")
  | .arr elems => !elems.isEmpty
  | .obj fields => !fields.isEmpty

/-- String coercion with default, for `data.get(key, default)` on
string-valued wire fields. -/
def Json.toStrD (j : Option Json) (d : String) : String :=
  match j with
  | some (.str s) => s
  | _ => d

/-- Optional string field, for `data.get(key)` on string-valued wire
fields (absent maps to `None`). -/
def Json.toStr? (j : Option Json) : Option String :=
  match j with
  | some (.str s) => some s
  | _ => none

/-- Numeric coercion with default 0, for `float(data.get(key, 0))` on
numeric wire fields. -/
def Json.toRatD (j : Option Json) : Rat :=
  match j with
  | some (.num q) => q
  | _ => 0

/-- Boolean field with default, for `data.get(key, default)` on
boolean wire fields. -/
def Json.toBoolD (j : Option Json) (d : Bool) : Bool :=
  match j with
  | some (.bool b) => b
  | _ => d

/-- The emptiness test `not response.text or response.text.strip() == ''`
of `_request`: true exactly when the body text consists of whitespace
only (including the empty body). -/
def isBlankText (s : String) : Bool :=
  s.data.all Char.isWhitespace

/-- The SDK's exception taxonomy (exceptions.py), plus `generic` for the
plain Python `ValueError` raised on "no data returned" protocol
violations.  `connection` records whether an underlying cause was
attached; `api` carries the HTTP status, the message value taken from the
error body (a JSON value, as in Python) and the optional details value. -/
inductive NlError where
  | validation (message : String) (paramName : String)
  | connection (message : String) (hasCause : Bool)
  | api (statusCode : Nat) (message : Json) (details : Option Json)
  | generic (message : String)

/-- True for the plain `ValueError` internal-consistency failures. -/
def NlError.isGeneric : NlError → Bool
  | .generic _ => true
  | _ => false

/-- Whether a method result is a generic (non-Api, non-typed) error. -/
def exceptIsGeneric {α : Type} : Except NlError α → Bool
  | .error e => e.isGeneric
  | .ok _ => false

/-- One HTTP response as seen by `HttpClient._request`: status code,
reason phrase (empty string when absent), raw body text, the result of
attempting to parse the body as JSON (`none` = parse failure), and the
`x-request-guid` header. `text` and `json?` are carried separately
because the Python code consults `response.text` and `response.json()`
independently. -/
structure HttpResponse where
  status : Nat
  reason : String
  text : String
  json? : Option Json
  requestGuid : Option String

/-- Outcome of one attempted HTTP exchange at the `requests` level. -/
inductive HttpResult where
  | resp (r : HttpResponse)
  | timeout
  | connFailure

/-- The uniform response envelope (`ApiResponse` in http_client.py). -/
structure ApiResp where
  data : Option Json
  statusCode : Nat
  requestGuid : Option String

/-- Embedding of `HttpClient._request` (http_client.py lines 69-112):
non-2xx statuses raise `NetLedgerApiError` with message from the body's
`message` field (falling back to `reason or 'Unknown error'`) and details
from `description`; 2xx with empty/whitespace body yields `data = none`;
2xx with an unparseable body raises `NetLedgerApiError(status, 'Failed to
parse response')`; timeouts and connection failures raise
`NetLedgerConnectionError`. -/
def request (h : HttpResult) : Except NlError ApiResp :=
  match h with
  | .resp r =>
    if 200 ≤ r.status ∧ r.status < 300 then
      if isBlankText r.text then .ok ⟨none, r.status, r.requestGuid⟩
      else
        match r.json? with
        | some d => .ok ⟨some d, r.status, r.requestGuid⟩
        | none => .error (.api r.status (.str "Failed to parse response") none)
    else
      let fallback := if r.reason = "" then "Unknown error" else r.reason
      match r.json? with
      | some ed =>
        .error (.api r.status ((ed.get? "message").getD (.str fallback)) (ed.get? "description"))
      | none => .error (.api r.status (.str fallback) none)
  | .timeout => .error (.connection "Request timed out" false)
  | .connFailure => .error (.connection "Failed to connect to the server" true)

/-- Embedding of `HttpClient.head` (http_client.py lines 58-67): a HEAD
request returns `200 <= status < 300` and never raises on the status;
timeouts and connection failures raise `NetLedgerConnectionError`. -/
def headRequest (h : HttpResult) : Except NlError Bool :=
  match h with
  | .resp r => .ok (decide (200 ≤ r.status ∧ r.status < 300))
  | .timeout => .error (.connection "Request timed out" false)
  | .connFailure => .error (.connection "Failed to connect to the server" true)

/-- Embedding of `AccountMethods.exists` (methods/account.py): a HEAD on
`/v1/accounts/{guid}`; the outcome of that exchange is `h`. -/
def accountExists (accountGuid : String) (h : HttpResult) : Except NlError Bool :=
  headRequest h

/-- Embedding of `ServiceMethods.health_check` (methods/service.py lines
19-29): a HEAD on the root path with every exception swallowed to
`False`. -/
def healthCheck (h : HttpResult) : Bool :=
  match headRequest h with
  | .ok b => b
  | .error _ => false

/-- Embedding of `BalanceMethods.verify` (methods/balance.py lines
109-129): GET `/v1/accounts/{guid}/verify`, return `status == 200`,
catching `NetLedgerApiError` with status 409 as `False`; every other
error re-raises. -/
def verify (h : HttpResult) : Except NlError Bool :=
  match request h with
  | .ok r => .ok (r.statusCode == 200)
  | .error (.api sc m d) => if sc == 409 then .ok false else .error (.api sc m d)
  | .error e => .error e

/-- The closed 3-way entry-type variant (`EntryType` IntEnum,
models.py). -/
inductive EntryType where
  | credit
  | debit
  | balance
deriving DecidableEq

/-- The IntEnum numeric codes: CREDIT = 0, DEBIT = 1, BALANCE = 2. -/
def EntryType.code : EntryType → Int
  | .credit => 0
  | .debit => 1
  | .balance => 2

/-- The constructor call `EntryType(raw)`: valid for the codes 0, 1, 2
and a `ValueError` (here `none`) otherwise. -/
def entryTypeOfNum? (q : Rat) : Option EntryType :=
  if q = 0 then some .credit
  else if q = 1 then some .debit
  else if q = 2 then some .balance
  else none

/-- The `type_map` lookup in `Entry.from_dict`:
`{"Credit": 0, "Debit": 1, "Balance": 2}.get(s, 0)`. -/
def typeMap (s : String) : Rat :=
  if s = "Credit" then 0
  else if s = "Debit" then 1
  else if s = "Balance" then 2
  else 0

/-- Ledger entry (models.py `Entry`). -/
structure Entry where
  guid : String
  accountGuid : String
  type : EntryType
  amount : Rat
  description : Option String
  replaces : Option String
  isCommitted : Bool
  committedByGuid : Option String
  committedUtc : Option String
  createdUtc : Option String

/-- The field extraction part of `Entry.from_dict` once the entry type
has been decoded. -/
def entryFields (data : Json) (t : EntryType) : Entry :=
  { guid := Json.toStrD (data.get? "GUID") ""
    accountGuid := Json.toStrD (data.get? "AccountGUID") ""
    type := t
    amount := Json.toRatD (data.get? "Amount")
    description := Json.toStr? (data.get? "Description")
    replaces := Json.toStr? (data.get? "Replaces")
    isCommitted := Json.toBoolD (data.get? "IsCommitted") false
    committedByGuid := Json.toStr? (data.get? "CommittedByGUID")
    committedUtc := Json.toStr? (data.get? "CommittedUtc")
    createdUtc := Json.toStr? (data.get? "CreatedUtc") }

/-- Embedding of `Entry.from_dict` (models.py lines 57-78).  The
discriminator `data.get("Type", 0)` is accepted either as a string
(looked up in `type_map`, unknown names defaulting to 0 = Credit) or as a
number (`EntryType(raw)`, raising `ValueError` outside 0/1/2, modelled as
`.error`). -/
def entryFromDict (data : Json) : Except String Entry :=
  match (data.get? "Type").getD (.num 0) with
  | .str s => .ok (entryFields data ((entryTypeOfNum? (typeMap s)).getD .credit))
  | .num q =>
    match entryTypeOfNum? q with
    | some t => .ok (entryFields data t)
    | none => .error "ValueError: invalid EntryType"
  | _ => .error "ValueError: invalid EntryType"

/-- Pending transaction summary (models.py). -/
structure PendingTransactionSummary where
  count : Rat
  total : Rat
  entries : Option (List Entry)

/-- Embedding of `PendingTransactionSummary.from_dict` (models.py lines
102-112): entries decoded only when `data.get("Entries")` is truthy. -/
def ptsFromDict (data : Json) : Except String PendingTransactionSummary :=
  match data.get? "Entries" with
  | some ej =>
    if ej.truthy then
      match ej with
      | .arr items => do
        let entries ← items.mapM entryFromDict
        .ok ⟨Json.toRatD (data.get? "Count"), Json.toRatD (data.get? "Total"), some entries⟩
      | _ => .error "TypeError: Entries is not a list"
    else .ok ⟨Json.toRatD (data.get? "Count"), Json.toRatD (data.get? "Total"), none⟩
  | none => .ok ⟨Json.toRatD (data.get? "Count"), Json.toRatD (data.get? "Total"), none⟩

/-- Account balance (models.py `Balance`). -/
structure Balance where
  accountGuid : String
  committedBalance : Rat
  pendingBalance : Rat
  pendingCredits : Option PendingTransactionSummary
  pendingDebits : Option PendingTransactionSummary

/-- Embedding of `Balance.from_dict` (models.py lines 124-139): the
pending summaries are decoded only when the corresponding field is
present and truthy. -/
def balanceFromDict (data : Json) : Except String Balance := do
  let pendingCredits ←
    match data.get? "PendingCredits" with
    | some j => if j.truthy then (ptsFromDict j).map some else pure none
    | none => pure none
  let pendingDebits ←
    match data.get? "PendingDebits" with
    | some j => if j.truthy then (ptsFromDict j).map some else pure none
    | none => pure none
  .ok { accountGuid := Json.toStrD (data.get? "AccountGUID") ""
        committedBalance := Json.toRatD (data.get? "CommittedBalance")
        pendingBalance := Json.toRatD (data.get? "PendingBalance")
        pendingCredits := pendingCredits
        pendingDebits := pendingDebits }

/-- The request body built by `BalanceMethods.commit` (balance.py lines
100-102): `body = None; if entry_guids: body = {'EntryGuids': ...}` —
the body is attached only when the list is truthy (non-None and
non-empty). -/
def commitBody (entryGuids : Option (List String)) : Option Json :=
  match entryGuids with
  | some (g :: gs) => some (.obj [("EntryGuids", .arr ((g :: gs).map Json.str))])
  | _ => none

/-- Embedding of `BalanceMethods.commit` (balance.py lines 85-107) over
an abstract server `srv` mapping the request body to the transport
outcome: POST the commit body, then require a truthy response body and
decode it with `Balance.from_dict` (decode failures are Python
exceptions, modelled as `generic`). -/
def commit (entryGuids : Option (List String))
    (srv : Option Json → Except NlError (Option Json)) : Except NlError Balance :=
  match srv (commitBody entryGuids) with
  | .error e => .error e
  | .ok data =>
    match data with
    | none => .error (.generic "No data returned from server")
    | some j =>
      if j.truthy then
        match balanceFromDict j with
        | .ok b => .ok b
        | .error m => .error (.generic m)
      else .error (.generic "No data returned from server")

/-- Input for creating an entry (models.py `EntryInput`). -/
structure EntryInput where
  amount : Rat
  description : Option String
deriving DecidableEq

/-- A PUT request to the credits/debits endpoint as issued by the entry
methods: the path and the JSON body. -/
structure PutEntriesReq where
  path : String
  body : Json

/-- The single-entry body of `add_credit`/`add_debit` (entry.py lines
42-44): `{'Amount': amount}` plus `Notes` when the description is truthy
(non-None and non-empty). -/
def singleEntryBody (amount : Rat) (description : Option String) : Json :=
  Json.obj ([("Amount", Json.num amount)] ++
    (match description with
     | some d => if d = "" then [] else [("Notes", Json.str d)]
     | none => []))

/-- The batch body of `add_credits`/`add_debits` (entry.py line 79):
`{'Entries': [{'Amount': e.amount, 'Notes': e.description}, ...]}` with
`Notes` always present (null for None). -/
def batchEntryBody (entries : List EntryInput) : Json :=
  Json.obj [("Entries", Json.arr (entries.map fun e =>
    Json.obj [("Amount", Json.num e.amount),
              ("Notes", match e.description with
                        | some d => Json.str d
                        | none => Json.null)]))]

/-- The decoded 2xx response body of the PUT credits/debits endpoints:
the optional `EntryGuids` field and whether any other keys are present
(the latter determines Python dict truthiness of `response.data`). -/
structure EntryGuidsBody where
  entryGuids : Option (List String)
  hasOtherFields : Bool
deriving DecidableEq

/-- Python truthiness of the decoded dict: non-empty. -/
def EntryGuidsBody.truthy (d : EntryGuidsBody) : Bool :=
  d.entryGuids.isSome || d.hasOtherFields

/-- The response handling of `add_credit`/`add_debit` (entry.py lines
47-53): `ValueError` when `response.data` is falsy, then
`entry_guids = response.data.get('EntryGuids', [])`, `ValueError` when
that list is empty, else its first element. -/
def decodeFirstGuid (data : Option EntryGuidsBody) : Except NlError String :=
  match data with
  | none => .error (.generic "No data returned from server")
  | some d =>
    if d.truthy then
      match d.entryGuids.getD [] with
      | [] => .error (.generic "No entry GUID returned from server")
      | g :: _ => .ok g
    else .error (.generic "No data returned from server")

/-- The response handling of `add_credits`/`add_debits` (entry.py lines
81-83): `[]` when `response.data` is falsy, else
`response.data.get('EntryGuids', [])`. -/
def decodeGuidList (data : Option EntryGuidsBody) : List String :=
  match data with
  | none => []
  | some d => if d.truthy then d.entryGuids.getD [] else []

/-- Embedding of `EntryMethods.add_credit` (entry.py lines 22-53) over an
abstract server `srv`.  The second component is the list of network
requests issued (empty when validation fails before any call). -/
def addCredit (accountGuid : String) (amount : Rat) (description : Option String)
    (srv : PutEntriesReq → Except NlError (Option EntryGuidsBody)) :
    Except NlError String × List PutEntriesReq :=
  if amount ≤ 0 then
    (.error (.validation "Amount must be greater than zero" "amount"), [])
  else
    let req : PutEntriesReq :=
      ⟨"/v1/accounts/" ++ accountGuid ++ "/credits", singleEntryBody amount description⟩
    match srv req with
    | .error e => (.error e, [req])
    | .ok data => (decodeFirstGuid data, [req])

/-- Embedding of `EntryMethods.add_debit` (entry.py lines 85-116). -/
def addDebit (accountGuid : String) (amount : Rat) (description : Option String)
    (srv : PutEntriesReq → Except NlError (Option EntryGuidsBody)) :
    Except NlError String × List PutEntriesReq :=
  if amount ≤ 0 then
    (.error (.validation "Amount must be greater than zero" "amount"), [])
  else
    let req : PutEntriesReq :=
      ⟨"/v1/accounts/" ++ accountGuid ++ "/debits", singleEntryBody amount description⟩
    match srv req with
    | .error e => (.error e, [req])
    | .ok data => (decodeFirstGuid data, [req])

/-- Embedding of `EntryMethods.add_credits` (entry.py lines 55-83). -/
def addCredits (accountGuid : String) (entries : List EntryInput)
    (srv : PutEntriesReq → Except NlError (Option EntryGuidsBody)) :
    Except NlError (List String) × List PutEntriesReq :=
  if entries.isEmpty then
    (.error (.validation "Entries list cannot be empty" "entries"), [])
  else if entries.any (fun e => decide (e.amount ≤ 0)) then
    (.error (.validation "All amounts must be greater than zero" "entries"), [])
  else
    let req : PutEntriesReq :=
      ⟨"/v1/accounts/" ++ accountGuid ++ "/credits", batchEntryBody entries⟩
    match srv req with
    | .error e => (.error e, [req])
    | .ok data => (.ok (decodeGuidList data), [req])

/-- Embedding of `EntryMethods.add_debits` (entry.py lines 118-146). -/
def addDebits (accountGuid : String) (entries : List EntryInput)
    (srv : PutEntriesReq → Except NlError (Option EntryGuidsBody)) :
    Except NlError (List String) × List PutEntriesReq :=
  if entries.isEmpty then
    (.error (.validation "Entries list cannot be empty" "entries"), [])
  else if entries.any (fun e => decide (e.amount ≤ 0)) then
    (.error (.validation "All amounts must be greater than zero" "entries"), [])
  else
    let req : PutEntriesReq :=
      ⟨"/v1/accounts/" ++ accountGuid ++ "/debits", batchEntryBody entries⟩
    match srv req with
    | .error e => (.error e, [req])
    | .ok data => (.ok (decodeGuidList data), [req])

/-- A server that answers every PUT with the same 2xx body. -/
def constSrv (data : Option EntryGuidsBody) :
    PutEntriesReq → Except NlError (Option EntryGuidsBody) :=
  fun _ => .ok data

/-- Whether a 2xx response carries no entry guid (no body, empty dict, or
missing/empty `EntryGuids`). -/
def noGuidData : Option EntryGuidsBody → Bool
  | none => true
  | some d => (d.entryGuids.getD []).isEmpty

/-- Enumeration ordering (models.py `EnumerationOrder` IntEnum). -/
inductive EnumerationOrder where
  | createdAscending
  | createdDescending
  | amountAscending
  | amountDescending
deriving DecidableEq

/-- The IntEnum `.value` codes of `EnumerationOrder`. -/
def EnumerationOrder.val : EnumerationOrder → Int
  | .createdAscending => 0
  | .createdDescending => 1
  | .amountAscending => 2
  | .amountDescending => 3

/-- Entry enumeration query (models.py `EntryEnumerationQuery`). -/
structure EntryEnumerationQuery where
  maxResults : Int := 100
  continuationToken : Option String := none
  createdAfterUtc : Option String := none
  createdBeforeUtc : Option String := none
  amountMin : Option Rat := none
  amountMax : Option Rat := none
  ordering : EnumerationOrder := .createdDescending
deriving DecidableEq

/-- One conditional string entry of `to_dict`: `if self.x: result[key] = self.x`
(Python truthiness of an optional string: non-None and non-empty). -/
def strField (key : String) (v : Option String) : List (String × Json) :=
  match v with
  | some t => if t = "" then [] else [(key, Json.str t)]
  | none => []

/-- One conditional numeric entry of `to_dict`:
`if self.x is not None: result[key] = self.x`. -/
def numField (key : String) (v : Option Rat) : List (String × Json) :=
  match v with
  | some a => [(key, Json.num a)]
  | none => []

/-- Embedding of `EntryEnumerationQuery.to_dict` (models.py lines
254-270): `MaxResults` and `Ordering` always; `ContinuationToken`,
`CreatedAfterUtc`, `CreatedBeforeUtc` when truthy (non-None and
non-empty); `AmountMinimum`, `AmountMaximum` when `is not None`. -/
def EntryEnumerationQuery.toDict (q : EntryEnumerationQuery) : List (String × Json) :=
  [("MaxResults", Json.num (q.maxResults : Rat)),
   ("Ordering", Json.num (q.ordering.val : Rat))]
  ++ strField "ContinuationToken" q.continuationToken
  ++ strField "CreatedAfterUtc" q.createdAfterUtc
  ++ strField "CreatedBeforeUtc" q.createdBeforeUtc
  ++ numField "AmountMinimum" q.amountMin
  ++ numField "AmountMaximum" q.amountMax

/-- A query whose populated string-valued optional fields are non-empty
(the regime in which the Python truthiness tests coincide with
field presence). -/
def EntryEnumerationQuery.okStrings (q : EntryEnumerationQuery) : Prop :=
  (∀ t, q.continuationToken = some t → t ≠ "") ∧
  (∀ t, q.createdAfterUtc = some t → t ≠ "") ∧
  (∀ t, q.createdBeforeUtc = some t → t ≠ "")

/-- Concrete query exercising the empty-string and zero-amount corner of
`to_dict`. -/
def c7Query : EntryEnumerationQuery :=
  { maxResults := 100
    continuationToken := some ""
    createdAfterUtc := none
    createdBeforeUtc := none
    amountMin := some 0
    amountMax := none
    ordering := .createdDescending }

/-- Concrete query used to evaluate the lossless-encoding theorem on a
populated input. -/
def c7WitnessQuery : EntryEnumerationQuery :=
  { maxResults := 5
    continuationToken := some "tok"
    createdAfterUtc := none
    createdBeforeUtc := none
    amountMin := some 2
    amountMax := none
    ordering := .amountAscending }

/-- One page of an enumeration response (models.py
`EnumerationResult`), with the opaque continuation token concretized as
the count of records already delivered. -/
structure EnumPage (α : Type) where
  objects : List α
  totalRecords : Nat
  recordsRemaining : Nat
  endOfResults : Bool
  continuationToken : Option Nat

/-- Modelled from the spec: the server-side enumeration endpoint behind
`EntryMethods.enumerate` is not part of this repository's sources (only
the SDK client is), so the page computation is taken from spec sections 3
and 8: for a fixed query and ordering the server holds a fixed result
sequence `items`; a request carrying a continuation token returns the
next `maxResults` items after the delivered prefix, with
`total_records = items.length`,
`records_remaining = total - delivered so far`,
`end_of_results` true iff nothing remains, and a continuation token
echoing the new delivered count while records remain. -/
def serverPage {α : Type} (items : List α) (maxResults : Nat) (token : Option Nat) :
    EnumPage α :=
  let delivered := token.getD 0
  let objs := (items.drop delivered).take maxResults
  let remaining := items.length - (delivered + objs.length)
  { objects := objs
    totalRecords := items.length
    recordsRemaining := remaining
    endOfResults := remaining == 0
    continuationToken := if remaining == 0 then none else some (delivered + objs.length) }

/-- The client pagination loop: fetch a page, and while it carries a
continuation token echo that token back verbatim for the next page
(fuel-bounded recursion; `items.length + 1` fuel always suffices). -/
def fetchAll {α : Type} (fuel : Nat) (items : List α) (maxResults : Nat)
    (token : Option Nat) : List (EnumPage α) :=
  match fuel with
  | 0 => []
  | fuel + 1 =>
    let p := serverPage items maxResults token
    match p.continuationToken with
    | none => [p]
    | some t => p :: fetchAll fuel items maxResults (some t)

/-- All pages of one fixed enumeration, starting with no token. -/
def enumeratePages {α : Type} (items : List α) (maxResults : Nat) : List (EnumPage α) :=
  fetchAll (items.length + 1) items maxResults none

/-- C10: commit with an empty `entry_guids` list sends no request body and
is indistinguishable from commit with `entry_guids = None`: the body is
attached only when the list is non-empty, so an empty list selects
commit-all-pending. -/
theorem netledger_C10 :
    commitBody (some []) = none ∧ commitBody none = none ∧
    ∀ srv : Option Json → Except NlError (Option Json),
      commit (some []) srv = commit none srv :=
  ⟨rfl, rfl, fun _ => rfl⟩

/-- Witness for C10 at a concrete server. -/
theorem netledger_C10_witness :
    commit (some []) (fun _ => .ok none) = commit none (fun _ => .ok none) :=
  netledger_C10.2.2 (fun _ => .ok none)

/-- C9: health_check never raises: it returns a boolean for every
transport outcome, swallowing every failure into `false`, and returns
`true` exactly when the HEAD on the root path succeeds with a 2xx
status. -/
theorem netledger_C9 (h : HttpResult) :
    healthCheck h = true ↔ ∃ r, h = .resp r ∧ 200 ≤ r.status ∧ r.status < 300 := by
  cases h with
  | resp r => simp [healthCheck, headRequest]
  | timeout => simp [healthCheck, headRequest]
  | connFailure => simp [healthCheck, headRequest]

/-- Witness for C9 at a concrete 2xx response and a timeout. -/
theorem netledger_C9_witness :
    healthCheck (.resp ⟨204, "No Content", "", none, none⟩) = true ∧
    healthCheck .timeout = false := by
  constructor
  · exact (netledger_C9 (.resp ⟨204, "No Content", "", none, none⟩)).mpr
      ⟨⟨204, "No Content", "", none, none⟩, rfl, by decide, by decide⟩
  · have h := netledger_C9 .timeout
    simp only [show (∃ r, HttpResult.timeout = HttpResult.resp r ∧
      200 ≤ r.status ∧ r.status < 300) ↔ False by
        constructor
        · rintro ⟨r, hr, -⟩
          exact HttpResult.noConfusion hr
        · exact False.elim] at h
    simpa using h

/-- C8: a HEAD request (and hence account exists) never raises on a
non-2xx status: it returns `true` iff the status is in [200,300) and
`false` otherwise; a timeout raises ConnectionError "Request timed out"
and any other connection failure raises ConnectionError wrapping the
underlying cause. -/
theorem netledger_C8 (g : String) (r : HttpResponse) :
    (headRequest (.resp r) = .ok true ↔ 200 ≤ r.status ∧ r.status < 300)
  ∧ (headRequest (.resp r) = .ok false ↔ ¬(200 ≤ r.status ∧ r.status < 300))
  ∧ (∃ b, headRequest (.resp r) = .ok b)
  ∧ headRequest .timeout = .error (.connection "Request timed out" false)
  ∧ headRequest .connFailure = .error (.connection "Failed to connect to the server" true)
  ∧ accountExists g (.resp r) = headRequest (.resp r)
  ∧ accountExists g .timeout = .error (.connection "Request timed out" false)
  ∧ accountExists g .connFailure = .error (.connection "Failed to connect to the server" true) := by
  refine ⟨?_, ?_, ⟨_, rfl⟩, rfl, rfl, rfl, rfl, rfl⟩ <;> simp [headRequest]

/-- Witness for C8 at a concrete guid and a 404 response. -/
theorem netledger_C8_witness :
    headRequest (.resp ⟨404, "Not Found", "", none, none⟩) = .ok false ∧
    accountExists "abc" .timeout = .error (.connection "Request timed out" false) := by
  constructor
  · exact (netledger_C8 "abc" ⟨404, "Not Found", "", none, none⟩).2.1.mpr (by decide)
  · exact (netledger_C8 "abc" ⟨404, "Not Found", "", none, none⟩).2.2.2.2.2.2.1

/-- C1: for every HTTP response handled by the transport's request
method: a 2xx status with empty/whitespace body yields an envelope with
`body = none`; a 2xx status with a non-empty body that is not valid JSON
raises ApiError with the original status and message "Failed to parse
response"; a non-2xx status raises ApiError with the original status,
message from the body's `message` field (falling back to the HTTP reason
phrase when absent) and details from the body's `description` field. -/
theorem netledger_C1 (r : HttpResponse) :
    (200 ≤ r.status ∧ r.status < 300 → isBlankText r.text = true →
      request (.resp r) = .ok ⟨none, r.status, r.requestGuid⟩)
  ∧ (200 ≤ r.status ∧ r.status < 300 → isBlankText r.text = false → r.json? = none →
      request (.resp r) = .error (.api r.status (.str "Failed to parse response") none))
  ∧ (¬(200 ≤ r.status ∧ r.status < 300) → r.reason ≠ "" →
      (∀ fs, r.json? = some (.obj fs) →
        request (.resp r) = .error (.api r.status
          (((Json.obj fs).get? "message").getD (.str r.reason))
          ((Json.obj fs).get? "description")))
      ∧ (r.json? = none →
        request (.resp r) = .error (.api r.status (.str r.reason) none))) := by
  refine ⟨?_, ?_, ?_⟩
  · intro h2 ht
    simp [request, h2, ht]
  · intro h2 ht hj
    simp [request, h2, ht, hj]
  · intro h2 hr
    constructor
    · intro fs hj
      simp [request, h2, hj, hr]
    · intro hj
      simp [request, h2, hj, hr]

/-- Witness for C1: a 2xx empty-body response, a 2xx unparseable body,
and a 404 with a `{message, description}` error body. -/
theorem netledger_C1_witness :
    request (.resp ⟨200, "OK", "  ", none, some "rg"⟩) = .ok ⟨none, 200, some "rg"⟩
  ∧ request (.resp ⟨201, "Created", "garbage", none, none⟩) =
      .error (.api 201 (.str "Failed to parse response") none)
  ∧ request (.resp ⟨404, "Not Found", "x",
        some (.obj [("message", .str "nope"), ("description", .str "deets")]), none⟩) =
      .error (.api 404 (.str "nope") (some (.str "deets"))) := by
  refine ⟨?_, ?_, ?_⟩
  · exact (netledger_C1 ⟨200, "OK", "  ", none, some "rg"⟩).1 (by decide) (by decide)
  · exact (netledger_C1 ⟨201, "Created", "garbage", none, none⟩).2.1
      (by decide) (by decide) rfl
  · exact ((netledger_C1 ⟨404, "Not Found", "x",
        some (.obj [("message", .str "nope"), ("description", .str "deets")]), none⟩).2.2
      (by decide) (by decide)).1
      [("message", .str "nope"), ("description", .str "deets")] rfl

/-- C2: Entry decoding accepts the entry-type discriminator both as a
small integer code and as one of the literal names
"Credit"/"Debit"/"Balance", normalizing to the closed 3-way variant
(Credit=0, Debit=1, Balance=2); every string other than those three names
decodes to Credit. -/
theorem netledger_C2 :
    ((entryFromDict (.obj [("Type", .num 0)])).map Entry.type = .ok .credit)
  ∧ ((entryFromDict (.obj [("Type", .num 1)])).map Entry.type = .ok .debit)
  ∧ ((entryFromDict (.obj [("Type", .num 2)])).map Entry.type = .ok .balance)
  ∧ ((entryFromDict (.obj [("Type", .str "Credit")])).map Entry.type = .ok .credit)
  ∧ ((entryFromDict (.obj [("Type", .str "Debit")])).map Entry.type = .ok .debit)
  ∧ ((entryFromDict (.obj [("Type", .str "Balance")])).map Entry.type = .ok .balance)
  ∧ EntryType.code .credit = 0 ∧ EntryType.code .debit = 1 ∧ EntryType.code .balance = 2
  ∧ (∀ s : String, s ≠ "Credit" → s ≠ "Debit" → s ≠ "Balance" →
      (entryFromDict (.obj [("Type", .str s)])).map Entry.type = .ok .credit) := by
  refine ⟨rfl, rfl, rfl, rfl, rfl, rfl, rfl, rfl, rfl, ?_⟩
  intro s h1 h2 h3
  simp [entryFromDict, Json.get?, List.lookup, typeMap, entryTypeOfNum?, h1, h2, h3,
    entryFields, Except.map]

/-- Witness for C2 at a concrete unrecognized type name. -/
theorem netledger_C2_witness :
    (entryFromDict (.obj [("Type", .str "Bogus")])).map Entry.type = .ok .credit :=
  netledger_C2.2.2.2.2.2.2.2.2.2 "Bogus" (by decide) (by decide) (by decide)

/-- C4: balance verify returns `true` when the server answers 200 (with a
well-formed 2xx body), `false` without raising when the server answers
409, and propagates an ApiError with the original status for every other
non-2xx status. -/
theorem netledger_C4 (r : HttpResponse) :
    (r.status = 200 → isBlankText r.text = true ∨ r.json?.isSome = true →
      verify (.resp r) = .ok true)
  ∧ (r.status = 409 → verify (.resp r) = .ok false)
  ∧ (¬(200 ≤ r.status ∧ r.status < 300) → r.status ≠ 409 →
      ∃ m d, verify (.resp r) = .error (.api r.status m d)) := by
  refine ⟨?_, ?_, ?_⟩
  · intro h200 hbody
    rcases hbody with ht | hs
    · simp [verify, request, h200, ht]
    · rcases hj : r.json? with - | j
      · rw [hj] at hs
        simp at hs
      · rcases ht : isBlankText r.text <;> simp [verify, request, h200, ht, hj]
  · intro h409
    have h2 : ¬(200 ≤ r.status ∧ r.status < 300) := by omega
    rcases hj : r.json? with - | j <;> simp [verify, request, h2, hj, h409]
  · intro h2 hne
    have hb : (r.status == 409) = false := by simp [hne]
    rcases hj : r.json? with - | j <;>
      simp [verify, request, h2, hj, hb]

/-- Witness for C4: a 200 with empty body, a 409, and a 500. -/
theorem netledger_C4_witness :
    verify (.resp ⟨200, "OK", "", none, none⟩) = .ok true
  ∧ verify (.resp ⟨409, "Conflict", "", none, none⟩) = .ok false
  ∧ ∃ m d, verify (.resp ⟨500, "Server Error", "", none, none⟩) =
      .error (.api 500 m d) := by
  refine ⟨?_, ?_, ?_⟩
  · exact (netledger_C4 ⟨200, "OK", "", none, none⟩).1 rfl (Or.inl rfl)
  · exact (netledger_C4 ⟨409, "Conflict", "", none, none⟩).2.1 rfl
  · exact (netledger_C4 ⟨500, "Server Error", "", none, none⟩).2.2 (by decide) (by decide)

/-- C5: for every amount <= 0, add_credit and add_debit raise a
ValidationError before any network call (the issued-request list is
empty); add_credits/add_debits raise a ValidationError before any network
call when the entries list is empty or any entry's amount is <= 0. -/
theorem netledger_C5 (g : String) (amount : Rat) (description : Option String)
    (entries : List EntryInput)
    (srv : PutEntriesReq → Except NlError (Option EntryGuidsBody)) :
    (amount ≤ 0 →
      addCredit g amount description srv =
        (.error (.validation "Amount must be greater than zero" "amount"), []) ∧
      addDebit g amount description srv =
        (.error (.validation "Amount must be greater than zero" "amount"), []))
  ∧ (entries = [] →
      addCredits g entries srv =
        (.error (.validation "Entries list cannot be empty" "entries"), []) ∧
      addDebits g entries srv =
        (.error (.validation "Entries list cannot be empty" "entries"), []))
  ∧ ((∃ e ∈ entries, e.amount ≤ 0) →
      addCredits g entries srv =
        (.error (.validation "All amounts must be greater than zero" "entries"), []) ∧
      addDebits g entries srv =
        (.error (.validation "All amounts must be greater than zero" "entries"), [])) := by
  refine ⟨?_, ?_, ?_⟩
  · intro hamt
    constructor <;> simp [addCredit, addDebit, hamt]
  · rintro rfl
    constructor <;> simp [addCredits, addDebits]
  · rintro ⟨e, he, hle⟩
    have hne : entries.isEmpty = false := by
      rcases entries with - | ⟨a, t⟩
      · exact absurd he (List.not_mem_nil e)
      · rfl
    have hany : entries.any (fun e => decide (e.amount ≤ 0)) = true := by
      rw [List.any_eq_true]
      exact ⟨e, he, by simpa using hle⟩
    constructor <;> simp [addCredits, addDebits, hne, hany]

/-- Witness for C5 at amount 0 and a batch containing a zero amount. -/
theorem netledger_C5_witness :
    addCredit "acct" 0 none (fun _ => .ok none) =
      (.error (.validation "Amount must be greater than zero" "amount"), [])
  ∧ addCredits "acct" [⟨5, none⟩, ⟨0, none⟩] (fun _ => .ok none) =
      (.error (.validation "All amounts must be greater than zero" "entries"), []) := by
  constructor
  · exact ((netledger_C5 "acct" 0 none [] (fun _ => .ok none)).1 (by decide)).1
  · exact ((netledger_C5 "acct" 0 none [⟨5, none⟩, ⟨0, none⟩] (fun _ => .ok none)).2.2
      ⟨⟨0, none⟩, by decide, by decide⟩).1

/-- C6: for a 2xx response, add_credit/add_debit return the first element
of the server's EntryGuids list, and raise a generic error (never an
ApiError) exactly when the server returns no guid or no body;
add_credits/add_debits return the full ordered EntryGuids list, with the
empty list (never an error) when the server returns none. -/
theorem netledger_C6 (g : String) (amount : Rat) (description : Option String)
    (data : Option EntryGuidsBody) (entries : List EntryInput)
    (hamt : 0 < amount) (hne : entries ≠ [])
    (hpos : ∀ e ∈ entries, 0 < e.amount) :
    (∀ g0 gs extra, data = some ⟨some (g0 :: gs), extra⟩ →
      (addCredit g amount description (constSrv data)).1 = .ok g0 ∧
      (addDebit g amount description (constSrv data)).1 = .ok g0)
  ∧ (exceptIsGeneric (addCredit g amount description (constSrv data)).1 = true ↔
      noGuidData data = true)
  ∧ (exceptIsGeneric (addDebit g amount description (constSrv data)).1 = true ↔
      noGuidData data = true)
  ∧ (∀ e, (addCredit g amount description (constSrv data)).1 = .error e →
      e.isGeneric = true)
  ∧ (addCredits g entries (constSrv data)).1 =
      .ok ((data.bind EntryGuidsBody.entryGuids).getD [])
  ∧ (addDebits g entries (constSrv data)).1 =
      .ok ((data.bind EntryGuidsBody.entryGuids).getD []) := by
  have hn : ¬(amount ≤ 0) := not_le.mpr hamt
  have hie : entries.isEmpty = false := by
    rcases entries with - | ⟨a, t⟩
    · exact absurd rfl hne
    · rfl
  have hany : entries.any (fun e => decide (e.amount ≤ 0)) = false := by
    rw [List.any_eq_false]
    intro e he
    simpa using not_le.mpr (hpos e he)
  refine ⟨?_, ?_, ?_, ?_, ?_, ?_⟩
  · rintro g0 gs extra rfl
    constructor <;>
      simp [addCredit, addDebit, constSrv, hn, decodeFirstGuid, EntryGuidsBody.truthy]
  · rcases data with - | ⟨eg, extra⟩
    · simp [addCredit, constSrv, hn, decodeFirstGuid, exceptIsGeneric,
        NlError.isGeneric, noGuidData]
    · rcases eg with - | ⟨- | ⟨g0, gs⟩⟩ <;> cases extra <;>
        simp [addCredit, constSrv, hn, decodeFirstGuid, exceptIsGeneric,
          NlError.isGeneric, noGuidData, EntryGuidsBody.truthy]
  · rcases data with - | ⟨eg, extra⟩
    · simp [addDebit, constSrv, hn, decodeFirstGuid, exceptIsGeneric,
        NlError.isGeneric, noGuidData]
    · rcases eg with - | ⟨- | ⟨g0, gs⟩⟩ <;> cases extra <;>
        simp [addDebit, constSrv, hn, decodeFirstGuid, exceptIsGeneric,
          NlError.isGeneric, noGuidData, EntryGuidsBody.truthy]
  · intro e
    rcases data with - | ⟨eg, extra⟩
    · simp [addCredit, constSrv, hn, decodeFirstGuid, NlError.isGeneric]
      rintro rfl
      rfl
    · rcases eg with - | ⟨- | ⟨g0, gs⟩⟩ <;> cases extra <;>
        simp [addCredit, constSrv, hn, decodeFirstGuid, NlError.isGeneric,
          EntryGuidsBody.truthy] <;> (rintro rfl; rfl)
  · rcases data with - | ⟨eg, extra⟩
    · simp [addCredits, constSrv, hie, hany, decodeGuidList]
    · rcases eg with - | l <;> cases extra <;>
        simp [addCredits, constSrv, hie, hany, decodeGuidList, EntryGuidsBody.truthy]
  · rcases data with - | ⟨eg, extra⟩
    · simp [addDebits, constSrv, hie, hany, decodeGuidList]
    · rcases eg with - | l <;> cases extra <;>
        simp [addDebits, constSrv, hie, hany, decodeGuidList, EntryGuidsBody.truthy]

/-- Witness for C6 at a concrete two-guid server response. -/
theorem netledger_C6_witness :
    (addCredit "acct" 5 none (constSrv (some ⟨some ["g1", "g2"], false⟩))).1 = .ok "g1"
  ∧ (addCredits "acct" [⟨3, none⟩] (constSrv (some ⟨some ["g1", "g2"], false⟩))).1 =
      .ok ["g1", "g2"] := by
  constructor
  · exact (((netledger_C6 "acct" 5 none (some ⟨some ["g1", "g2"], false⟩) [⟨3, none⟩]
      (by decide) (by decide) (by decide)).1) "g1" ["g2"] false rfl).1
  · exact (netledger_C6 "acct" 5 none (some ⟨some ["g1", "g2"], false⟩) [⟨3, none⟩]
      (by decide) (by decide) (by decide)).2.2.2.2.1

/-- Association lookup distributes over list append. -/
theorem lookup_append {β : Type} (k : String) (l1 l2 : List (String × β)) :
    List.lookup k (l1 ++ l2) = (List.lookup k l1).or (List.lookup k l2) := by
  induction l1 with
  | nil => simp [List.lookup]
  | cons a t ih =>
    rcases a with ⟨k', v⟩
    by_cases h : (k == k') <;> simp [List.lookup, h, ih]

/-- Looking up a conditional string field by its own key. -/
theorem lookup_strField_self (key : String) (v : Option String) :
    List.lookup key (strField key v) =
      (match v with
       | some t => if t = "" then none else some (Json.str t)
       | none => none) := by
  rcases v with - | t
  · simp [strField, List.lookup]
  · by_cases h : t = "" <;> simp [strField, List.lookup, h]

/-- Looking up a conditional string field by a different key. -/
theorem lookup_strField_ne (key k : String) (h : (k == key) = false) (v : Option String) :
    List.lookup k (strField key v) = none := by
  rcases v with - | t
  · simp [strField, List.lookup]
  · by_cases he : t = "" <;> simp [strField, List.lookup, h, he]

/-- Looking up a conditional numeric field by its own key. -/
theorem lookup_numField_self (key : String) (v : Option Rat) :
    List.lookup key (numField key v) = v.map Json.num := by
  rcases v with - | a <;> simp [numField, List.lookup]

/-- Looking up a conditional numeric field by a different key. -/
theorem lookup_numField_ne (key k : String) (h : (k == key) = false) (v : Option Rat) :
    List.lookup k (numField key v) = none := by
  rcases v with - | a <;> simp [numField, List.lookup, h]

/-- The `MaxResults` entry is always present. -/
theorem lookup_maxResults (q : EntryEnumerationQuery) :
    List.lookup "MaxResults" q.toDict = some (Json.num (q.maxResults : Rat)) := by
  simp [EntryEnumerationQuery.toDict, lookup_append, List.lookup]

/-- The `Ordering` entry is always present. -/
theorem lookup_ordering (q : EntryEnumerationQuery) :
    List.lookup "Ordering" q.toDict = some (Json.num (q.ordering.val : Rat)) := by
  simp [EntryEnumerationQuery.toDict, lookup_append, List.lookup]

/-- The `ContinuationToken` entry reflects the Python truthiness test. -/
theorem lookup_continuationToken (q : EntryEnumerationQuery) :
    List.lookup "ContinuationToken" q.toDict =
      (match q.continuationToken with
       | some t => if t = "" then none else some (Json.str t)
       | none => none) := by
  simp [EntryEnumerationQuery.toDict, lookup_append, List.lookup,
    lookup_strField_self, lookup_strField_ne, lookup_numField_ne]

/-- The `CreatedAfterUtc` entry reflects the Python truthiness test. -/
theorem lookup_createdAfterUtc (q : EntryEnumerationQuery) :
    List.lookup "CreatedAfterUtc" q.toDict =
      (match q.createdAfterUtc with
       | some t => if t = "" then none else some (Json.str t)
       | none => none) := by
  simp [EntryEnumerationQuery.toDict, lookup_append, List.lookup,
    lookup_strField_self, lookup_strField_ne, lookup_numField_ne]

/-- The `CreatedBeforeUtc` entry reflects the Python truthiness test. -/
theorem lookup_createdBeforeUtc (q : EntryEnumerationQuery) :
    List.lookup "CreatedBeforeUtc" q.toDict =
      (match q.createdBeforeUtc with
       | some t => if t = "" then none else some (Json.str t)
       | none => none) := by
  simp [EntryEnumerationQuery.toDict, lookup_append, List.lookup,
    lookup_strField_self, lookup_strField_ne, lookup_numField_ne]

/-- The `AmountMinimum` entry is present exactly when the field is
non-None. -/
theorem lookup_amountMinimum (q : EntryEnumerationQuery) :
    List.lookup "AmountMinimum" q.toDict = q.amountMin.map Json.num := by
  simp [EntryEnumerationQuery.toDict, lookup_append, List.lookup,
    lookup_strField_ne, lookup_numField_self, lookup_numField_ne]

/-- The `AmountMaximum` entry is present exactly when the field is
non-None. -/
theorem lookup_amountMaximum (q : EntryEnumerationQuery) :
    List.lookup "AmountMaximum" q.toDict = q.amountMax.map Json.num := by
  simp [EntryEnumerationQuery.toDict, lookup_append, List.lookup,
    lookup_strField_ne, lookup_numField_self, lookup_numField_ne]

/-- The `Json.str` constructor is injective. -/
theorem json_str_injective : Function.Injective Json.str := by
  intro a b h
  injection h

/-- The `Json.num` constructor is injective. -/
theorem json_num_injective : Function.Injective Json.num := by
  intro a b h
  injection h

/-- The IntEnum codes of `EnumerationOrder` are injective. -/
theorem enumOrder_val_injective : Function.Injective EnumerationOrder.val := by
  intro a b h
  cases a <;> cases b <;> first
    | rfl
    | simp [EnumerationOrder.val] at h

/-- C7 fails as stated: an empty-string continuation token is a populated
optional field, yet `to_dict` omits it (Python truthiness), so the
encoding is not lossless for it; symmetrically, a populated
`amount_min = 0` is falsy in Python yet still encoded, because amounts
are tested with `is not None`. -/
theorem netledger_C7_counterexample :
    c7Query.continuationToken.isSome = true
  ∧ List.lookup "ContinuationToken" c7Query.toDict = none
  ∧ c7Query.amountMin = some 0
  ∧ List.lookup "AmountMinimum" c7Query.toDict = some (Json.num 0)
  ∧ c7Query.toDict =
      EntryEnumerationQuery.toDict { c7Query with continuationToken := none } :=
  ⟨rfl, rfl, rfl, rfl, rfl⟩

/-- C7 amended: the payload always contains MaxResults and Ordering;
AmountMinimum/AmountMaximum appear exactly when the corresponding field
is non-None (zero included); ContinuationToken/CreatedAfterUtc/
CreatedBeforeUtc appear exactly when the field is populated with a
non-empty string (an empty-string value is treated as absent); for
queries whose populated string fields are non-empty every populated value
appears verbatim and the encoding is injective. -/
theorem netledger_C7_amended (q q' : EntryEnumerationQuery)
    (hq : q.okStrings) (hq' : q'.okStrings) :
    List.lookup "MaxResults" q.toDict = some (Json.num (q.maxResults : Rat))
  ∧ List.lookup "Ordering" q.toDict = some (Json.num (q.ordering.val : Rat))
  ∧ List.lookup "ContinuationToken" q.toDict = q.continuationToken.map Json.str
  ∧ List.lookup "CreatedAfterUtc" q.toDict = q.createdAfterUtc.map Json.str
  ∧ List.lookup "CreatedBeforeUtc" q.toDict = q.createdBeforeUtc.map Json.str
  ∧ List.lookup "AmountMinimum" q.toDict = q.amountMin.map Json.num
  ∧ List.lookup "AmountMaximum" q.toDict = q.amountMax.map Json.num
  ∧ (q.toDict = q'.toDict → q = q') := by
  have tok : ∀ p : EntryEnumerationQuery, p.okStrings →
      List.lookup "ContinuationToken" p.toDict = p.continuationToken.map Json.str := by
    intro p hp
    rw [lookup_continuationToken]
    rcases hc : p.continuationToken with - | t
    · rfl
    · simp [hp.1 t hc]
  have caf : ∀ p : EntryEnumerationQuery, p.okStrings →
      List.lookup "CreatedAfterUtc" p.toDict = p.createdAfterUtc.map Json.str := by
    intro p hp
    rw [lookup_createdAfterUtc]
    rcases hc : p.createdAfterUtc with - | t
    · rfl
    · simp [hp.2.1 t hc]
  have cbf : ∀ p : EntryEnumerationQuery, p.okStrings →
      List.lookup "CreatedBeforeUtc" p.toDict = p.createdBeforeUtc.map Json.str := by
    intro p hp
    rw [lookup_createdBeforeUtc]
    rcases hc : p.createdBeforeUtc with - | t
    · rfl
    · simp [hp.2.2 t hc]
  refine ⟨lookup_maxResults q, lookup_ordering q, tok q hq, caf q hq, cbf q hq,
    lookup_amountMinimum q, lookup_amountMaximum q, ?_⟩
  intro h
  have hmr : q.maxResults = q'.maxResults := by
    have := (lookup_maxResults q).symm.trans ((congrArg (List.lookup "MaxResults") h).trans
      (lookup_maxResults q'))
    have h2 := json_num_injective (Option.some_injective _ this)
    exact_mod_cast h2
  have hord : q.ordering = q'.ordering := by
    have := (lookup_ordering q).symm.trans ((congrArg (List.lookup "Ordering") h).trans
      (lookup_ordering q'))
    have h2 := json_num_injective (Option.some_injective _ this)
    have h3 : q.ordering.val = q'.ordering.val := by exact_mod_cast h2
    exact enumOrder_val_injective h3
  have htok : q.continuationToken = q'.continuationToken := by
    have := (tok q hq).symm.trans ((congrArg (List.lookup "ContinuationToken") h).trans
      (tok q' hq'))
    exact Option.map_injective json_str_injective this
  have hcaf : q.createdAfterUtc = q'.createdAfterUtc := by
    have := (caf q hq).symm.trans ((congrArg (List.lookup "CreatedAfterUtc") h).trans
      (caf q' hq'))
    exact Option.map_injective json_str_injective this
  have hcbf : q.createdBeforeUtc = q'.createdBeforeUtc := by
    have := (cbf q hq).symm.trans ((congrArg (List.lookup "CreatedBeforeUtc") h).trans
      (cbf q' hq'))
    exact Option.map_injective json_str_injective this
  have hmin : q.amountMin = q'.amountMin := by
    have := (lookup_amountMinimum q).symm.trans
      ((congrArg (List.lookup "AmountMinimum") h).trans (lookup_amountMinimum q'))
    exact Option.map_injective json_num_injective this
  have hmax : q.amountMax = q'.amountMax := by
    have := (lookup_amountMaximum q).symm.trans
      ((congrArg (List.lookup "AmountMaximum") h).trans (lookup_amountMaximum q'))
    exact Option.map_injective json_num_injective this
  rcases q with ⟨a1, a2, a3, a4, a5, a6, a7⟩
  rcases q' with ⟨b1, b2, b3, b4, b5, b6, b7⟩
  simp_all

/-- Witness for C7 at a concrete query with populated token and amount
minimum. -/
theorem netledger_C7_witness :
    List.lookup "ContinuationToken" c7WitnessQuery.toDict =
      some (Json.str "tok")
  ∧ List.lookup "AmountMinimum" c7WitnessQuery.toDict = some (Json.num 2) := by
  have hok : c7WitnessQuery.okStrings := by
    refine ⟨?_, ?_, ?_⟩ <;> intro t ht
    · have h2 : t = "tok" := by
        have : some "tok" = some t := ht
        exact (Option.some_injective _ this).symm
      subst h2
      decide
    · exact Option.noConfusion ht
    · exact Option.noConfusion ht
  have h := netledger_C7_amended c7WitnessQuery c7WitnessQuery hok hok
  exact ⟨h.2.2.1, h.2.2.2.2.2.1⟩

/-- Cons preserves `getLast?` when the tail is non-empty. -/
theorem getLast?_cons_of_ne_nil {α : Type} (a : α) (l : List α) (h : l ≠ []) :
    (a :: l).getLast? = l.getLast? := by
  rcases l with - | ⟨b, t⟩
  · exact absurd rfl h
  · exact List.getLast?_cons_cons

/-- The pagination loop always produces at least one page. -/
theorem fetchAll_ne_nil {α : Type} (fuel : Nat) (hf : 0 < fuel) (items : List α)
    (m : Nat) (tok : Option Nat) : fetchAll fuel items m tok ≠ [] := by
  rcases fuel with - | n
  · simp at hf
  · simp only [fetchAll]
    split <;> simp

/-- The first page produced by the loop is the server's answer to the
initial token. -/
theorem fetchAll_head {α : Type} (fuel : Nat) (hf : 0 < fuel) (items : List α)
    (m : Nat) (tok : Option Nat) :
    (fetchAll fuel items m tok).head? = some (serverPage items m tok) := by
  rcases fuel with - | n
  · simp at hf
  · simp only [fetchAll]
    split <;> simp

/-- Invariant of the pagination loop, generalized over the starting
token: the concatenated pages are exactly the undelivered suffix, every
page reports the full total and `end_of_results` iff nothing remains,
the remaining counts strictly decrease, and the final page reports 0
remaining. -/
theorem fetchAll_inv {α : Type} (items : List α) (m : Nat) (hm : 0 < m) :
    ∀ (fuel : Nat) (tok : Option Nat), items.length - tok.getD 0 < fuel →
      (((fetchAll fuel items m tok).map (fun p => p.objects)).flatten =
          items.drop (tok.getD 0))
    ∧ (∀ p ∈ fetchAll fuel items m tok,
        p.totalRecords = items.length ∧ (p.endOfResults = true ↔ p.recordsRemaining = 0))
    ∧ List.Chain' (fun a b => b < a)
        ((fetchAll fuel items m tok).map (fun p => p.recordsRemaining))
    ∧ ((fetchAll fuel items m tok).map (fun p => p.recordsRemaining)).getLast? = some 0 := by
  intro fuel
  induction fuel with
  | zero =>
    intro tok h
    exact absurd h (Nat.not_lt_zero _)
  | succ n ih =>
    intro tok hf
    have ht : ((items.drop (tok.getD 0)).take m).length =
        min m (items.length - tok.getD 0) := by
      simp [List.length_take, List.length_drop]
    by_cases hrem :
        items.length - (tok.getD 0 + min m (items.length - tok.getD 0)) = 0
    · have hfe : fetchAll (n + 1) items m tok = [serverPage items m tok] := by
        simp only [fetchAll]
        rw [show (serverPage items m tok).continuationToken = none from by
          simp [serverPage, hrem]]
      have hlen : (items.drop (tok.getD 0)).length ≤ m := by
        rw [List.length_drop]
        omega
      refine ⟨?_, ?_, ?_, ?_⟩
      · rw [hfe]
        simp [serverPage, List.take_of_length_le hlen]
      · intro p hp
        rw [hfe] at hp
        simp only [List.mem_singleton] at hp
        subst hp
        simp [serverPage, beq_iff_eq]
      · rw [hfe]
        simp
      · rw [hfe]
        simp [serverPage, hrem]
    · have hfe : fetchAll (n + 1) items m tok = serverPage items m tok ::
          fetchAll n items m
            (some (tok.getD 0 + min m (items.length - tok.getD 0))) := by
        simp only [fetchAll]
        rw [show (serverPage items m tok).continuationToken =
            some (tok.getD 0 + min m (items.length - tok.getD 0)) from by
          simp [serverPage, hrem]]
      have htm : min m (items.length - tok.getD 0) = m := by
        omega
      have hn : 0 < n := by
        omega
      obtain ⟨ih1, ih2, ih3, ih4⟩ :=
        ih (some (tok.getD 0 + min m (items.length - tok.getD 0))) (by
          simp only [Option.getD_some]
          omega)
      refine ⟨?_, ?_, ?_, ?_⟩
      · rw [hfe]
        simp only [List.map_cons, List.flatten_cons]
        rw [ih1]
        simp only [Option.getD_some, serverPage, htm]
        rw [← List.drop_drop, List.take_append_drop]
      · intro p hp
        rw [hfe] at hp
        rcases List.mem_cons.mp hp with hp | hp
        · subst hp
          simp [serverPage, beq_iff_eq]
        · exact ih2 p hp
      · rw [hfe]
        simp only [List.map_cons]
        rw [List.chain'_cons']
        refine ⟨?_, ih3⟩
        intro y hy
        rw [List.head?_map, fetchAll_head n hn items m, Option.map_some'] at hy
        have hy2 : y = (serverPage items m
            (some (tok.getD 0 + min m (items.length - tok.getD 0)))).recordsRemaining := by
          simpa using hy.symm
        have hts : ((items.drop (tok.getD 0 +
            min m (items.length - tok.getD 0))).take m).length =
            min m (items.length -
              (tok.getD 0 + min m (items.length - tok.getD 0))) := by
          simp [List.length_take, List.length_drop]
        rw [hy2]
        simp only [serverPage, Option.getD_some]
        omega
      · rw [hfe]
        simp only [List.map_cons]
        rw [getLast?_cons_of_ne_nil]
        · exact ih4
        · rw [Ne, List.map_eq_nil_iff]
          exact fetchAll_ne_nil n hn items m _

/-- C3: for a fixed enumeration and ordering, concatenating the pages
obtained by repeatedly echoing back continuation_token yields exactly the
full item sequence (hence total_records items, no duplicates, no gaps);
records_remaining strictly decreases to 0 on the final page; and on every
page end_of_results is true iff records_remaining is 0.  The server-side
page computation is modelled from the spec (see `serverPage`). -/
theorem netledger_C3 {α : Type} (items : List α) (m : Nat) (hm : 0 < m) :
    (((enumeratePages items m).map (fun p => p.objects)).flatten = items)
  ∧ (((enumeratePages items m).map (fun p => p.objects)).flatten.length = items.length)
  ∧ (∀ p ∈ enumeratePages items m,
      p.totalRecords = items.length ∧ (p.endOfResults = true ↔ p.recordsRemaining = 0))
  ∧ List.Chain' (fun a b => b < a)
      ((enumeratePages items m).map (fun p => p.recordsRemaining))
  ∧ ((enumeratePages items m).map (fun p => p.recordsRemaining)).getLast? = some 0 := by
  obtain ⟨h1, h2, h3, h4⟩ := fetchAll_inv items m hm (items.length + 1) none (by simp)
  simp only [Option.getD_none, List.drop_zero] at h1
  exact ⟨h1, by simp only [enumeratePages]; rw [h1], h2, h3, h4⟩

/-- Witness for C3 at a concrete three-item enumeration with page size
two. -/
theorem netledger_C3_witness :
    0 < 2
  ∧ ((((enumeratePages [10, 20, 30] 2).map (fun p => p.objects)).flatten = [10, 20, 30])
  ∧ ((((enumeratePages [10, 20, 30] 2).map (fun p => p.objects)).flatten.length =
      ([10, 20, 30] : List Nat).length))
  ∧ (∀ p ∈ enumeratePages [10, 20, 30] 2,
      p.totalRecords = ([10, 20, 30] : List Nat).length ∧
        (p.endOfResults = true ↔ p.recordsRemaining = 0))
  ∧ List.Chain' (fun a b => b < a)
      ((enumeratePages [10, 20, 30] 2).map (fun p => p.recordsRemaining))
  ∧ ((enumeratePages [10, 20, 30] 2).map (fun p => p.recordsRemaining)).getLast? =
      some 0) :=
  ⟨by decide, netledger_C3 [10, 20, 30] 2 (by decide)⟩

end NetLedger
